import Mathlib

/-!
Verification of the ign-enhancer background delivery pipeline and credential
snapshot store.  The definitions below are shallow embeddings of the
TypeScript source: the message-queue processor (processQueue and its
outcome handling), the forum sender response classification
(makePostRequest), job selection and enqueueing, the account-state store
(saveAccountState, importAccountData, exportAccountData), and the account
switcher (switchToAccountState together with handleSwitchAccount).
Timestamps are in milliseconds, wait times in seconds, exactly as in the
source.  Browser I/O (cookie jar, localStorage, persisted blob) is made
explicit as record state; network responses and scraped profiles are taken
as inputs.
-/

namespace IgnEnhancer

/-! ## String helpers mirroring JavaScript primitives -/

/-- Decides whether the first list is a prefix of the second. -/
def listIsPrefixOf : List Char → List Char → Bool
  | [], _ => true
  | _ :: _, [] => false
  | c :: cs, d :: ds => c = d && listIsPrefixOf cs ds

/-- Decides whether the pattern occurs as a contiguous sublist. -/
def listContainsSub (p : List Char) : List Char → Bool
  | [] => listIsPrefixOf p []
  | c :: cs => listIsPrefixOf p (c :: cs) || listContainsSub p cs

/-- JavaScript String.prototype.includes on our strings. -/
def strContains (s pat : String) : Bool :=
  listContainsSub pat.toList s.toList

/-- Numeric value of a list of decimal digit characters. -/
def natOfDigits (cs : List Char) : Nat :=
  cs.foldl (fun n c => n * 10 + (c.toNat - 48)) 0

/-- Leftmost match of the JavaScript regular expression (\d+) seconds:
the first position whose maximal digit run is immediately followed by
the literal text " seconds"; returns the numeric value of the run. -/
def waitSecondsAux : List Char → Option Nat
  | [] => none
  | c :: cs =>
    if c.isDigit then
      let ds := (c :: cs).takeWhile (·.isDigit)
      let rest := (c :: cs).drop ds.length
      if listIsPrefixOf " seconds".toList rest then some (natOfDigits ds)
      else waitSecondsAux cs
    else waitSecondsAux cs

/-- Parses the anti-flood wait time, as errorMsg.match(/(\d+) seconds/)
followed by parseInt on the captured group. -/
def parseWaitSeconds (s : String) : Option Nat :=
  waitSecondsAux s.toList

/-! ## Delivery job data model (QueuedMessage, src/unnamed/part_003) -/

/-- Job lifecycle states: pending, processing, completed, error. -/
inductive MsgStatus
  | pending
  | processing
  | completed
  | error
deriving DecidableEq, Repr

/-- One queued delivery job, exactly the QueuedMessage interface:
antiFloodCount and retryAfter are optional fields, timestamp is the
enqueue instant in milliseconds, retryAfter is in seconds. -/
structure QueuedMessage where
  id : String
  accountId : String
  threadUrl : String
  message : String
  timestamp : Nat
  status : MsgStatus
  error : Option String := none
  retryCount : Nat := 0
  antiFloodCount : Option Nat := none
  retryAfter : Option Nat := none
deriving DecidableEq, Repr

/-- MAX_RETRIES from the queue module. -/
def MAX_RETRIES : Nat := 3

/-- Errors thrown during a send attempt: the typed object literals thrown
by makePostRequest (auth, antiflood, security) and ordinary Error
instances (generic). -/
inductive ThrownError
  | auth (message : String)
  | antiflood (retryAfter : Option Nat) (message : String)
  | security (message : String)
  | generic (message : String)
deriving DecidableEq, Repr

/-- The errorMessage computed in the catch block of processQueue:
error instanceof Error gives its message, while the typed object
literals stringify to "[object Object]". -/
def errMessageOf : ThrownError → String
  | .generic m => m
  | _ => "[object Object]"

/-- What the send attempt looks like from processQueue: a returned
response that parsed as JSON, an in-band HTTP failure, or a thrown
exception. -/
inductive SendOutcome
  | okJson (jsonStatus : Option String) (errors : Option (List String))
  | httpError (status : Nat) (statusText : String)
  | exn (e : ThrownError)
deriving DecidableEq, Repr

/-- data.errors joined for the error field: join with ", " when the
errors array is present, otherwise "Unknown error". -/
def joinErrors : Option (List String) → String
  | some l => String.intercalate ", " l
  | none => "Unknown error"

/-- Outcome handling of processQueue (src/unnamed/part_003 lines
186-345): the branch on the parsed response and the catch block,
applied to the in-flight job. -/
def processOutcome (m : QueuedMessage) (o : SendOutcome) : QueuedMessage :=
  match o with
  | .okJson st errs =>
    if st = some "ok" then
      { m with status := .completed }
    else
      let firstErr : Option String := errs.bind List.head?
      if st = some "error" ∧ (firstErr.map (fun e => strContains e "wait")).getD false then
        let waitTime := ((firstErr.bind parseWaitSeconds).getD 30 : Nat)
        { m with antiFloodCount := some (m.antiFloodCount.getD 0 + 1),
                 status := .pending,
                 retryAfter := some waitTime,
                 error := firstErr }
      else if st = some "error" ∧ (firstErr.map (fun e => strContains e "security")).getD false then
        { m with status := .error,
                 error := some ("Security error: " ++ firstErr.getD "" ++ ". The account may need to be resynced.") }
      else
        let rc := m.retryCount + 1
        if MAX_RETRIES ≤ rc then
          { m with retryCount := rc, status := .error, error := some (joinErrors errs) }
        else
          { m with retryCount := rc, status := .pending, retryAfter := some 30,
                   error := some (joinErrors errs) }
  | .httpError s t =>
    let rc := m.retryCount + 1
    let msg := "HTTP error: " ++ toString s ++ " " ++ t
    if MAX_RETRIES ≤ rc then
      { m with retryCount := rc, status := .error, error := some msg }
    else
      { m with retryCount := rc, status := .pending, retryAfter := some 30, error := some msg }
  | .exn e =>
    let msg := errMessageOf e
    match e with
    | .security _ =>
      { m with status := .error,
               error := some ("Security error: " ++ msg ++ ". The account may need to be resynced.") }
    | .antiflood ra _ =>
      let m1 := { m with antiFloodCount := some (m.antiFloodCount.getD 0 + 1) }
      match ra with
      | some n => { m1 with status := .pending, retryAfter := some n, error := some msg }
      | none => { m1 with status := .pending, retryAfter := some 30, error := some msg }
    | _ =>
      if MAX_RETRIES ≤ m.retryCount then
        { m with status := .error, error := some msg }
      else
        { m with retryCount := m.retryCount + 1, status := .pending, retryAfter := some 30,
                 error := some msg }

/-! ## Sender response classification (makePostRequest, account-state.ts) -/

/-- The forum response as seen by makePostRequest: HTTP layer plus the
JSON body (jsonParses is false when the body is not valid JSON, in which
case the clone parse yields the empty object). -/
structure ForumResponse where
  ok : Bool
  status : Nat
  statusText : String
  jsonParses : Bool
  jsonStatus : Option String
  errors : Option (List String)
deriving DecidableEq, Repr

/-- Result of makePostRequest: either the response is returned to the
caller or a classified error is thrown. -/
inductive PostResult
  | returned
  | thrown (e : ThrownError)
deriving DecidableEq, Repr

/-- Response processing of makePostRequest (account-state.ts lines
805-883): classify an error JSON body by keyword, in order cookie,
wait, security/csrf, generic; non-2xx responses throw a generic HTTP
error; otherwise the response is returned. -/
def classifyPostResponse (r : ForumResponse) : PostResult :=
  let responseStatus : Option String := if r.jsonParses then r.jsonStatus else none
  let responseErrors : Option (List String) := if r.jsonParses then r.errors else none
  if r.ok then
    if responseStatus = some "error" ∧ (responseErrors.map (fun l => decide (0 < l.length))).getD false then
      let errorMsg := (responseErrors.bind List.head?).getD ""
      if strContains errorMsg "Cookie" ∨ strContains errorMsg "cookie" then
        .thrown (.auth ("Cookie error: " ++ errorMsg ++ ". Try resyncing the account."))
      else if strContains errorMsg "wait" then
        .thrown (.antiflood (some ((parseWaitSeconds errorMsg).getD 30)) errorMsg)
      else if strContains errorMsg "security" ∨ strContains errorMsg "csrf" then
        .thrown (.security errorMsg)
      else
        .thrown (.generic ("Forum error: " ++ String.intercalate ", " (responseErrors.getD [])))
    else
      .returned
  else
    .thrown (.generic ("HTTP error: " ++ toString r.status ++ " " ++ r.statusText))

/-- Message of the rejection raised when response.json() fails in
processQueue after the sender returned the response. -/
def jsonParseFailureMessage : String := "Unexpected end of JSON input"

/-- One integrated delivery attempt on a claimed job: the sender
classifies the forum response (throwing typed errors), and processQueue
handles either the returned response or the caught exception. -/
def processAttempt (m : QueuedMessage) (r : ForumResponse) : QueuedMessage :=
  match classifyPostResponse r with
  | .thrown e => processOutcome m (.exn e)
  | .returned =>
    if r.ok then
      if r.jsonParses then processOutcome m (.okJson r.jsonStatus r.errors)
      else processOutcome m (.exn (.generic jsonParseFailureMessage))
    else processOutcome m (.httpError r.status r.statusText)

/-! ## Job selection and enqueueing -/

/-- Eligibility test of the selection predicate in processQueue lines
144-147: pending, and either no retryAfter (or a zero one, which is
falsy) or the wait of retryAfter seconds since the enqueue timestamp
has elapsed. -/
def eligibleNow (now : Nat) (m : QueuedMessage) : Bool :=
  decide (m.status = .pending) &&
    (match m.retryAfter with
     | none => true
     | some ra => decide (ra = 0) || decide (m.timestamp + ra * 1000 ≤ now))

/-- queue.find of the first eligible pending message, in insertion
order. -/
def findNextPending (now : Nat) (queue : List QueuedMessage) : Option QueuedMessage :=
  queue.find? (eligibleNow now)

/-- addToMessageQueue: appends a fresh pending job whose id and
timestamp are the current time. -/
def addToMessageQueue (queue : List QueuedMessage) (accountId threadUrl message : String)
    (now : Nat) : List QueuedMessage :=
  queue ++ [{ id := toString now, accountId := accountId, threadUrl := threadUrl,
              message := message, timestamp := now, status := .pending, retryCount := 0 }]

/-! ## Concrete fixtures used by counterexamples and scenarios -/

/-- A freshly enqueued job, as produced by addToMessageQueue. -/
def sampleJob : QueuedMessage :=
  { id := "1000", accountId := "A", threadUrl := "t1", message := "hello",
    timestamp := 1000, status := .pending, retryCount := 0 }

/-- An HTTP 500 response from the forum. -/
def http500Response : ForumResponse :=
  { ok := false, status := 500, statusText := "Internal Server Error",
    jsonParses := false, jsonStatus := none, errors := none }

/-- The anti-flood response of the section-8 scenario. -/
def antiFlood45Response : ForumResponse :=
  { ok := true, status := 200, statusText := "OK", jsonParses := true,
    jsonStatus := some "error", errors := some ["You must wait at least 45 seconds"] }

/-- A cookie-related (auth) error response. -/
def cookieErrResponse : ForumResponse :=
  { ok := true, status := 200, statusText := "OK", jsonParses := true,
    jsonStatus := some "error", errors := some ["Cookies are required to use this site."] }

/-! ## Account snapshot store (account-state.ts) -/

/-- A stored browser cookie: the fields the switching and sending code
reads and writes. -/
structure StoredCookie where
  name : String
  domain : String
  path : String
  value : String
deriving DecidableEq, Repr

/-- Scraped user profile. -/
structure UserProfile where
  userId : String
  username : String
  displayName : String
  avatarUrl : String
deriving DecidableEq, Repr

/-- Snapshot lifecycle status. -/
inductive AccountStatus
  | pending
  | synced
deriving DecidableEq, Repr

/-- One stored identity snapshot (the AccountState interface).  The
accounts record of the persisted blob is modelled as a list of
snapshots in key order, associated by id. -/
structure AccountState where
  id : String
  name : String
  cookies : List StoredCookie
  localStorage : List (String × String)
  timestamp : Nat
  status : AccountStatus
  isResyncing : Bool := false
  profile : Option UserProfile := none
deriving DecidableEq, Repr

/-- The persisted accountStates blob. -/
structure AccountStates where
  activeAccountId : Option String := none
  pendingAccountId : Option String := none
  accounts : List AccountState := []
deriving DecidableEq, Repr

/-- The empty store, as produced by getAccountStates on first access. -/
def emptyAccountStates : AccountStates := {}

/-- account.profile?.userId, an optional chain whose undefined results
compare equal. -/
def profileUserId (a : AccountState) : Option String :=
  a.profile.map (fun p => p.userId)

/-- Assignment states.accounts[state.id] = state: replace the entry of
that id in place, or append a new entry. -/
def upsertAccount (l : List AccountState) (st : AccountState) : List AccountState :=
  if l.any (fun a => decide (a.id = st.id)) then
    l.map (fun a => if a.id = st.id then st else a)
  else l ++ [st]

/-- The duplicate search of saveAccountState: another account whose
optional profile user id compares equal (undefined equals undefined)
under a different id. -/
def dupPred (st a : AccountState) : Bool :=
  decide (profileUserId a = profileUserId st ∧ a.id ≠ st.id)

/-- Deletion of the first duplicate account, when one is found. -/
def dupFilter (l : List AccountState) (st : AccountState) : List AccountState :=
  match l.find? (dupPred st) with
  | some dup => l.filter (fun a => decide (a.id ≠ dup.id))
  | none => l

/-- The isResyncing-clearing step of saveAccountState: if the stored
entry under this id is flagged resyncing, the incoming snapshot is saved
with the flag cleared. -/
def resyncAdjust (states : AccountStates) (state : AccountState) : AccountState :=
  if ((states.accounts.find? (fun a => decide (a.id = state.id))).map
        (fun a => a.isResyncing)).getD false then
    { state with isResyncing := false }
  else state

/-- saveAccountState (account-state.ts lines 266-289): clear a pending
resync flag, delete the first other account sharing the optional profile
user id, store the snapshot under its id, and mark it active.  The
conditional transfer of the active pointer from a deleted duplicate is
immediately overwritten by the unconditional assignment of line 287, so
the net active pointer is always the saved id. -/
def saveAccountState (states : AccountStates) (state : AccountState) : AccountStates :=
  let st := resyncAdjust states state
  { states with accounts := upsertAccount (dupFilter states.accounts st) st,
                activeAccountId := some st.id }

/-- A whole history of save calls applied to a store. -/
def applySaves (states : AccountStates) (saves : List AccountState) : AccountStates :=
  saves.foldl saveAccountState states

/-- Snapshot A of the section-8 supersede scenario: active, user id 7. -/
def acctA : AccountState :=
  { id := "A", name := "alice", cookies := [], localStorage := [], timestamp := 1,
    status := .synced,
    profile := some { userId := "7", username := "u7", displayName := "Alice", avatarUrl := "" } }

/-- Snapshot B of the section-8 supersede scenario: not active, same
user id 7 under a different id. -/
def acctB : AccountState :=
  { id := "B", name := "bob", cookies := [], localStorage := [], timestamp := 2,
    status := .synced,
    profile := some { userId := "7", username := "u7", displayName := "Bob", avatarUrl := "" } }

/-! ## Store invariants -/

/-- All ids distinct (the accounts record is keyed by id). -/
def UniqueIds (l : List AccountState) : Prop :=
  l.Pairwise (fun a b => a.id ≠ b.id)

/-- Any two members holding profiles with the same user id are the same
entry. -/
def ProfOnce (l : List AccountState) : Prop :=
  ∀ x ∈ l, ∀ y ∈ l, ∀ px py, x.profile = some px → y.profile = some py →
    px.userId = py.userId → x.id = y.id


/-! ## JSON values, import and export (account-state.ts lines 453-480)

The persisted blob travels through JSON.stringify and JSON.parse, the
inverse serialization pair of the host platform; the import and export
operations are modelled on the parsed JSON tree. -/

/-- A JSON value. -/
inductive Json where
  | null
  | bool (b : Bool)
  | num (n : Int)
  | str (s : String)
  | arr (elems : List Json)
  | obj (fields : List (String × Json))

/-- JavaScript truthiness of a JSON value. -/
def Json.truthy : Json → Bool
  | .null => false
  | .bool b => b
  | .num n => decide (n ≠ 0)
  | .str s => decide (s ≠ "")
  | .arr _ => true
  | .obj _ => true

/-- Whether typeof gives object: true for objects, arrays and null. -/
def Json.typeofObject : Json → Bool
  | .null => true
  | .arr _ => true
  | .obj _ => true
  | _ => false

/-- Whether the value is a JSON object proper. -/
def Json.isObj : Json → Bool
  | .obj _ => true
  | _ => false

/-- Property read on an object; undefined (none) on any other value. -/
def Json.getKey : Json → String → Option Json
  | .obj fields, k => (fields.find? (fun f => decide (f.1 = k))).map (fun f => f.2)
  | _, _ => none

/-- The JavaScript in operator for a named key. -/
def Json.hasKey (j : Json) (k : String) : Bool :=
  (j.getKey k).isSome

/-- Object.values: fields of objects, elements of arrays, characters of
strings, empty for the remaining primitives; throws (none) on null. -/
def jsValues : Json → Option (List Json)
  | .null => none
  | .obj fields => some (fields.map (fun f => f.2))
  | .arr xs => some xs
  | .str s => some (s.toList.map (fun c => Json.str (String.mk [c])))
  | _ => some []

/-- Truthiness of a possibly-undefined property. -/
def jsTruthyOpt : Option Json → Bool
  | none => false
  | some v => v.truthy

/-- Array.isArray of a possibly-undefined property. -/
def optIsArr : Option Json → Bool
  | some (.arr _) => true
  | _ => false

/-- typeof of a possibly-undefined property compared with object. -/
def optTypeofObject : Option Json → Bool
  | some v => v.typeofObject
  | none => false

/-- Whether the property is a JSON object proper. -/
def optIsObj : Option Json → Bool
  | some (.obj _) => true
  | _ => false

/-- The per-account validation of importAccountData: truthy id and name,
a cookies array, a localStorage of typeof object, and a truthy
timestamp; reading a property of a null account throws (none). -/
def validAccount : Json → Option Bool
  | .null => none
  | a => some (jsTruthyOpt (a.getKey "id") && jsTruthyOpt (a.getKey "name") &&
               optIsArr (a.getKey "cookies") && optTypeofObject (a.getKey "localStorage") &&
               jsTruthyOpt (a.getKey "timestamp"))

/-- importAccountData on the parsed blob: reject unless the data is a
truthy object carrying an accounts key whose values all validate; only
then is the blob written.  Thrown validation and property-access errors
and failed structural checks all surface as a failed import (none). -/
def importAccountData (data : Json) : Option Json :=
  if data.truthy && data.typeofObject && data.hasKey "accounts" then
    match jsValues ((data.getKey "accounts").getD Json.null) with
    | none => none
    | some vs =>
      if vs.all (fun v => (validAccount v).getD false) then some data else none
  else none

/-- The persisted blob after an import attempt: the parsed data when
the operation succeeds, the previous blob untouched when it fails. -/
def storageAfterImport (prev : Option Json) (j : Json) : Option Json :=
  match importAccountData j with
  | some v => some v
  | none => prev

/-- The snapshots of the blob as the specification reads them: the
values of the accounts object.  Follows the wording of the claim, not
the code. -/
def specAccounts (j : Json) : List Json :=
  match j.getKey "accounts" with
  | some (Json.obj fs) => fs.map (fun f => f.2)
  | _ => []

/-- A snapshot lacking a required field, as the claim states it: no id,
no name, no cookies array, no localStorage object, or no timestamp.
Follows the wording of the claim, not the code. -/
def specLacksRequired (a : Json) : Prop :=
  a.getKey "id" = none ∨ a.getKey "name" = none ∨
  optIsArr (a.getKey "cookies") = false ∨
  optIsObj (a.getKey "localStorage") = false ∨
  a.getKey "timestamp" = none

/-- Structural invalidity as the claim states it: not an object with an
accounts field, or some account lacking a required field.  Follows the
wording of the claim, not the code. -/
def specStructurallyInvalid (j : Json) : Prop :=
  j.isObj = false ∨ j.hasKey "accounts" = false ∨
    ∃ a ∈ specAccounts j, specLacksRequired a

/-- Structural invalidity as amended to the checks the code runs: the
data must be a truthy value of typeof object carrying an accounts key,
Object.values of the accounts must not throw, and every account value
must pass the per-account validation (whose localStorage check is
typeof-based and therefore also accepts null and arrays). -/
def specInvalidAmended (j : Json) : Prop :=
  j.truthy = false ∨ j.typeofObject = false ∨ j.hasKey "accounts" = false ∨
  jsValues ((j.getKey "accounts").getD Json.null) = none ∨
  ∃ a ∈ (jsValues ((j.getKey "accounts").getD Json.null)).getD [],
    ¬ validAccount a = some true

/-- The import-c8 counterexample blob: one account whose localStorage is
null, which is not a localStorage object yet passes the typeof check. -/
def c8BadBlob : Json :=
  Json.obj [("accounts", Json.obj [("a",
    Json.obj [("id", Json.str "a"), ("name", Json.str "n"),
              ("cookies", Json.arr []), ("localStorage", Json.null),
              ("timestamp", Json.num 1)])])]

/-! ## JSON encoding of the persisted account blob (exportAccountData) -/

/-- JSON encoding of a stored cookie. -/
def cookieToJson (c : StoredCookie) : Json :=
  .obj [("name", .str c.name), ("domain", .str c.domain),
        ("path", .str c.path), ("value", .str c.value)]

/-- JSON encoding of a profile. -/
def profileToJson (p : UserProfile) : Json :=
  .obj [("userId", .str p.userId), ("username", .str p.username),
        ("displayName", .str p.displayName), ("avatarUrl", .str p.avatarUrl)]

/-- JSON encoding of the status field. -/
def statusToJson : AccountStatus → Json
  | .pending => .str "pending"
  | .synced => .str "synced"

/-- JSON encoding of a snapshot; an absent profile is dropped by
JSON.stringify. -/
def accountToJson (a : AccountState) : Json :=
  .obj ([("id", .str a.id), ("name", .str a.name),
         ("cookies", .arr (a.cookies.map cookieToJson)),
         ("localStorage", .obj (a.localStorage.map (fun kv => (kv.1, Json.str kv.2)))),
         ("timestamp", .num (Int.ofNat a.timestamp)),
         ("status", statusToJson a.status),
         ("isResyncing", .bool a.isResyncing)] ++
        (match a.profile with
         | some p => [("profile", profileToJson p)]
         | none => []))

/-- JSON encoding of the whole accountStates blob; absent pointers are
dropped by JSON.stringify. -/
def accountStatesToJson (s : AccountStates) : Json :=
  .obj ((match s.activeAccountId with
         | some i => [("activeAccountId", Json.str i)]
         | none => []) ++
        (match s.pendingAccountId with
         | some i => [("pendingAccountId", Json.str i)]
         | none => []) ++
        [("accounts", Json.obj (s.accounts.map (fun a => (a.id, accountToJson a))))])

/-- exportAccountData: JSON.stringify of the blob, modelled as the JSON
tree the exported string parses back to. -/
def exportAccountData (s : AccountStates) : Json :=
  accountStatesToJson s

/-- Snapshots whose required fields survive the import validation:
nonempty id and name and a nonzero capture timestamp. -/
def WfAccount (a : AccountState) : Prop :=
  a.id ≠ "" ∧ a.name ≠ "" ∧ a.timestamp ≠ 0

/-! ## Live browser state and the identity switcher
(switchToAccountState in account-state.ts, handleSwitchAccount in
AccountManager.tsx) -/

/-- ESSENTIAL_COOKIES of account-state.ts. -/
def ESSENTIAL_COOKIES : List String :=
  ["xf_user", "xf_session", "xf_csrf", "xf_dbWriteForced"]

/-- The forum domains. -/
def IGNBOARDS_DOMAIN : String := "ignboards.com"

/-- The www forum domain. -/
def WWW_IGNBOARDS_DOMAIN : String := "www.ignboards.com"

/-- The live browser-side state the switcher mutates: the cookie jar,
the page localStorage, and the persisted account blob. -/
structure LiveWorld where
  jar : List StoredCookie
  localStore : List (String × String)
  states : AccountStates
deriving DecidableEq, Repr

/-- Membership in ESSENTIAL_COOKIES. -/
def isEssential (c : StoredCookie) : Bool :=
  ESSENTIAL_COOKIES.contains c.name

/-- browser.cookies.getAll for both forum domains, concatenated. -/
def getAllForumCookies (jar : List StoredCookie) : List StoredCookie :=
  jar.filter (fun c => decide (c.domain = IGNBOARDS_DOMAIN)) ++
    jar.filter (fun c => decide (c.domain = WWW_IGNBOARDS_DOMAIN))

/-- browser.cookies.remove keyed by the cookie's own name, domain and
path. -/
def removeCookieKey (jar : List StoredCookie) (c : StoredCookie) : List StoredCookie :=
  jar.filter (fun x => decide (¬(x.name = c.name ∧ x.domain = c.domain ∧ x.path = c.path)))

/-- browser.cookies.set: replaces any cookie of the same key and stores
the new one. -/
def setCookie (jar : List StoredCookie) (c : StoredCookie) : List StoredCookie :=
  removeCookieKey jar c ++ [c]

/-- Sequential removal of a batch of cookies. -/
def removeCookies (jar : List StoredCookie) (toRemove : List StoredCookie) : List StoredCookie :=
  toRemove.foldl removeCookieKey jar

/-- localStorage.setItem. -/
def lsSetItem (l : List (String × String)) (kv : String × String) : List (String × String) :=
  if l.any (fun x => decide (x.1 = kv.1)) then
    l.map (fun x => if x.1 = kv.1 then kv else x)
  else l ++ [kv]

/-- The xf_push_notice_dismiss cookie switchToAccountState always
sets. -/
def pushNoticeCookie : StoredCookie :=
  { name := "xf_push_notice_dismiss", domain := WWW_IGNBOARDS_DOMAIN, path := "/", value := "1" }

/-- clearCurrentSession (account-state.ts lines 171-196): removes every
essential forum cookie and clears localStorage. -/
def clearCurrentSession (w : LiveWorld) : LiveWorld :=
  let authCookies := (getAllForumCookies w.jar).filter isEssential
  { w with jar := removeCookies w.jar authCookies, localStore := [] }

/-- switchToAccountState (account-state.ts lines 296-396): none when
the account is unknown (thrown before any mutation); otherwise clears
localStorage, removes the essential cookies, writes the target's
essential cookies plus the push-notice cookie, writes the target's
localStorage, and persists the target as the active account.  Cookie
writes of the host environment are modelled as succeeding. -/
def switchToAccountState (accountId : String) (w : LiveWorld) : Option LiveWorld :=
  match w.states.accounts.find? (fun a => decide (a.id = accountId)) with
  | none => none
  | some account =>
    let authCookies := (getAllForumCookies w.jar).filter isEssential
    let jar1 := removeCookies w.jar authCookies
    let cookiesToSet := account.cookies.filter isEssential
    let jar2 := cookiesToSet.foldl setCookie jar1
    let jar3 := setCookie jar2 pushNoticeCookie
    let ls1 := account.localStorage.foldl lsSetItem []
    some { jar := jar3, localStore := ls1,
           states := { w.states with activeAccountId := some accountId } }

/-- storeCurrentSession (account-state.ts lines 482-511): refreshes the
active account's stored cookies, localStorage and timestamp from the
live state; a missing active pointer or entry leaves the world
untouched (handleSwitchAccount swallows the failure and continues). -/
def storeCurrentSession (now : Nat) (w : LiveWorld) : LiveWorld :=
  match w.states.activeAccountId with
  | none => w
  | some aid =>
    match w.states.accounts.find? (fun a => decide (a.id = aid)) with
    | none => w
    | some account =>
      let account1 : AccountState :=
        { account with
            cookies := getAllForumCookies w.jar,
            localStorage := w.localStore,
            timestamp := now }
      let newAccounts := w.states.accounts.map (fun a => if a.id = aid then account1 else a)
      { w with states := { w.states with accounts := newAccounts } }

/-- The login-verification loop: consume scraped profiles until one is
found, with the given number of tries. -/
def firstProfile : Nat → List (Option UserProfile) → Option UserProfile × List (Option UserProfile)
  | 0, s => (none, s)
  | _ + 1, [] => (none, [])
  | n + 1, o :: rest =>
    match o with
    | some p => (some p, rest)
    | none => firstProfile n rest

/-- Result of one handleSwitchAccount call. -/
structure SwitchResult where
  world : LiveWorld
  switchSuccessful : Bool
  errorReported : Bool
deriving DecidableEq, Repr

/-- The recovery path of handleSwitchAccount (AccountManager.tsx lines
907-1034): clear the session; restore the backed-up essential cookies
directly when there are any, verifying with a scrape; fall back to a
full switch to the previous account with one more verification; clear
the session again when every recovery step fails or throws.  The
persisted blob is only touched by the fallback switch - the
verified direct restore updates React state alone. -/
def recoverPrevious (previousAccountId : Option String) (previousCookies : List StoredCookie)
    (scrapes : List (Option UserProfile)) (w : LiveWorld) : LiveWorld :=
  match previousAccountId with
  | none => clearCurrentSession w
  | some prevId =>
    let w1 := clearCurrentSession w
    if previousCookies.length ≠ 0 then
      let essentialCookies := previousCookies.filter isEssential
      if essentialCookies.length ≠ 0 then
        let w2 := { w1 with jar := essentialCookies.foldl setCookie w1.jar }
        match scrapes with
        | some _ :: _ => w2
        | _ =>
          match switchToAccountState prevId w2 with
          | some w3 =>
            match scrapes.drop 1 with
            | some _ :: _ => w3
            | _ => clearCurrentSession w3
          | none => clearCurrentSession w2
      else clearCurrentSession w1
    else
      match switchToAccountState prevId w1 with
      | some w2 =>
        match scrapes with
        | some _ :: _ => w2
        | _ => clearCurrentSession w2
      | none => clearCurrentSession w1

/-- handleSwitchAccount (AccountManager.tsx lines 824-1047): store the
current session into the active snapshot, back up the live forum
cookies, switch credentials, verify the logged-in profile against the
target snapshot (up to two scrapes), and on any failure report an error
and run the recovery path.  The scrape oracle lists the successive
results of checkCurrentUser. -/
def handleSwitchAccount (accountId : String) (scrapes : List (Option UserProfile)) (now : Nat)
    (w0 : LiveWorld) : SwitchResult :=
  let w := storeCurrentSession now w0
  let previousAccountId := w.states.activeAccountId
  let previousCookies := getAllForumCookies w.jar
  let targetAccount := w0.states.accounts.find? (fun a => decide (a.id = accountId))
  match switchToAccountState accountId w with
  | none =>
    { world := recoverPrevious previousAccountId previousCookies scrapes w,
      switchSuccessful := false, errorReported := true }
  | some w1 =>
    match firstProfile 2 scrapes with
    | (none, scrapesRest) =>
      { world := recoverPrevious previousAccountId previousCookies scrapesRest w1,
        switchSuccessful := false, errorReported := true }
    | (some p, scrapesRest) =>
      match targetAccount with
      | none =>
        { world := recoverPrevious previousAccountId previousCookies scrapesRest w1,
          switchSuccessful := false, errorReported := true }
      | some target =>
        if (target.profile.map (fun q => q.userId)) = some p.userId then
          { world := w1, switchSuccessful := true, errorReported := false }
        else
          { world := recoverPrevious previousAccountId previousCookies scrapesRest w1,
            switchSuccessful := false, errorReported := true }

/-! ## Fixtures for the switch-rollback scenario -/

/-- A cookie on the www forum domain. -/
def wwwCookie (n v : String) : StoredCookie :=
  { name := n, domain := WWW_IGNBOARDS_DOMAIN, path := "/", value := v }

/-- The live jar before the switch: the four essential cookies with the
given values plus one non-essential cookie. -/
def switchJar (v1 v2 v3 v4 : String) : List StoredCookie :=
  [wwwCookie "xf_user" v1, wwwCookie "xf_session" v2, wwwCookie "xf_csrf" v3,
   wwwCookie "xf_dbWriteForced" v4, wwwCookie "other_cookie" "x"]

/-- The previously active identity of the switch scenario, user id 1. -/
def switchAcct1 (v1 v2 v3 v4 : String) : AccountState :=
  { id := "1", name := "one",
    cookies := [wwwCookie "xf_user" v1, wwwCookie "xf_session" v2, wwwCookie "xf_csrf" v3,
                wwwCookie "xf_dbWriteForced" v4],
    localStorage := [], timestamp := 10, status := .synced,
    profile := some { userId := "1", username := "one", displayName := "One", avatarUrl := "" } }

/-- The switch target of the scenario, stored profile user id 42. -/
def switchAcct2 : AccountState :=
  { id := "2", name := "two",
    cookies := [wwwCookie "xf_user" "u2", wwwCookie "xf_session" "s2", wwwCookie "xf_csrf" "c2",
                wwwCookie "xf_dbWriteForced" "d2"],
    localStorage := [("k2", "v2")], timestamp := 20, status := .synced,
    profile := some { userId := "42", username := "two", displayName := "Two", avatarUrl := "" } }

/-- The pre-call live world of the switch scenario: identity 1 active,
arbitrary essential cookie values and local storage. -/
def switchWorld (v1 v2 v3 v4 : String) (ls : List (String × String)) : LiveWorld :=
  { jar := switchJar v1 v2 v3 v4, localStore := ls,
    states := { activeAccountId := some "1",
                accounts := [switchAcct1 v1 v2 v3 v4, switchAcct2] } }

/-- The profile the post-switch scrape yields: user id 99, matching
neither identity. -/
def mismatchProfile : UserProfile :=
  { userId := "99", username := "w", displayName := "W", avatarUrl := "" }

/-- The profile of the previous identity, yielded by the recovery
scrape. -/
def prevProfile : UserProfile :=
  { userId := "1", username := "one", displayName := "One", avatarUrl := "" }

/-! ## List.find? helper lemmas -/

theorem find?_eq_some_split {α} (p : α → Bool) :
    ∀ {l : List α} {a : α}, l.find? p = some a →
      p a = true ∧ ∃ l1 l2, l = l1 ++ a :: l2 ∧ ∀ x ∈ l1, p x = false := by
  intro l
  induction l with
  | nil => intro a h; simp [List.find?] at h
  | cons c cs ih =>
    intro a h
    rw [List.find?] at h
    cases hp : p c with
    | true =>
      rw [hp] at h
      cases h
      exact ⟨hp, [], cs, rfl, by simp⟩
    | false =>
      rw [hp] at h
      obtain ⟨hpa, l1, l2, hsplit, hall⟩ := ih h
      exact ⟨hpa, c :: l1, l2, by rw [hsplit]; rfl, by
        intro x hx
        rcases List.mem_cons.mp hx with hx | hx
        · subst hx; exact hp
        · exact hall x hx⟩

theorem find?_append_cons {α} (p : α → Bool) :
    ∀ (l1 : List α) (a : α) (l2 : List α), (∀ x ∈ l1, p x = false) → p a = true →
      (l1 ++ a :: l2).find? p = some a := by
  intro l1
  induction l1 with
  | nil => intro a l2 _ ha; simp [List.find?, ha]
  | cons c cs ih =>
    intro a l2 hall ha
    have hc : p c = false := hall c (List.mem_cons_self c cs)
    simp only [List.cons_append, List.find?, hc]
    exact ih a l2 (fun x hx => hall x (List.mem_cons_of_mem c hx)) ha

/-! ## Claim C1: retry bound for generic and HTTP failures -/

/-- C1 counterexample: three consecutive HTTP 500 failures (surfaced to
processQueue as thrown errors, the path every HTTP failure of the real
sender takes) leave the job Pending with retryCount 3; it does not
transition to Failed after the third failure, contradicting the claim. -/
theorem c1_counterexample :
    (processAttempt (processAttempt (processAttempt sampleJob http500Response)
        http500Response) http500Response).status = .pending ∧
    (processAttempt (processAttempt (processAttempt sampleJob http500Response)
        http500Response) http500Response).status ≠ .error ∧
    (processAttempt (processAttempt (processAttempt sampleJob http500Response)
        http500Response) http500Response).retryCount = 3 := by
  refine ⟨?_, ?_, ?_⟩ <;> decide

/-- C1 (amended): on the in-band response path a generic or HTTP failure
increments retryCount and the job reaching retryCount 3 transitions to
Failed; on the exception path (which the integrated sender uses for all
generic and HTTP failures) the bound is checked before incrementing, so a
generic failure increments retryCount only while it is below 3 and a
failure arriving with retryCount at least 3 transitions the job to Failed
without incrementing; hence three consecutive exception-path failures
leave the job Pending with retryCount 3 and the fourth makes it Failed
with retryCount 3. -/
theorem c1_retry_bound_amended :
    (∀ (m : QueuedMessage) (e : String), processOutcome m (.exn (.generic e)) =
      if 3 ≤ m.retryCount then { m with status := .error, error := some e }
      else { m with retryCount := m.retryCount + 1, status := .pending,
                    retryAfter := some 30, error := some e }) ∧
    (∀ (m : QueuedMessage) (s : Nat) (t : String), processOutcome m (.httpError s t) =
      if 3 ≤ m.retryCount + 1 then
        { m with retryCount := m.retryCount + 1, status := .error,
                 error := some ("HTTP error: " ++ toString s ++ " " ++ t) }
      else
        { m with retryCount := m.retryCount + 1, status := .pending, retryAfter := some 30,
                 error := some ("HTTP error: " ++ toString s ++ " " ++ t) }) ∧
    (processOutcome { sampleJob with retryCount := 2 } (.okJson (some "error") (some ["boom"])) =
      { sampleJob with retryCount := 3, status := .error, error := some "boom" }) ∧
    ((processAttempt (processAttempt (processAttempt (processAttempt sampleJob http500Response)
        http500Response) http500Response) http500Response).status = .error ∧
     (processAttempt (processAttempt (processAttempt (processAttempt sampleJob http500Response)
        http500Response) http500Response) http500Response).retryCount = 3) := by
  refine ⟨fun m e => rfl, fun m s t => rfl, by decide, by decide, by decide⟩

/-! ## Claim C2: anti-flood handling -/

/-- C2: an anti-flood outcome from the sender returns the job to Pending
with antiFloodCount incremented, retryAfter set to the parsed wait time
and retryCount untouched; a forum error message containing "wait" (and no
cookie keyword) is classified as anti-flood with the seconds parsed from
the message; the 45-second scenario and the three-consecutive-anti-flood
scenario behave as stated. -/
theorem c2_antiflood_policy :
    (∀ (m : QueuedMessage) (ra : Nat) (msg : String),
      processOutcome m (.exn (.antiflood (some ra) msg)) =
        { m with status := .pending, antiFloodCount := some (m.antiFloodCount.getD 0 + 1),
                 retryAfter := some ra, error := some "[object Object]" }) ∧
    (∀ msg : String, strContains msg "wait" = true → strContains msg "Cookie" = false →
      strContains msg "cookie" = false →
      classifyPostResponse { ok := true, status := 200, statusText := "OK", jsonParses := true,
                             jsonStatus := some "error", errors := some [msg] } =
        .thrown (.antiflood (some ((parseWaitSeconds msg).getD 30)) msg)) ∧
    (findNextPending 1000 (addToMessageQueue [] "A" "t1" "hello" 1000) = some sampleJob ∧
     (processAttempt sampleJob antiFlood45Response).status = .pending ∧
     (processAttempt sampleJob antiFlood45Response).antiFloodCount = some 1 ∧
     (processAttempt sampleJob antiFlood45Response).retryAfter = some 45 ∧
     (processAttempt sampleJob antiFlood45Response).retryCount = 0) ∧
    ((processAttempt (processAttempt (processAttempt sampleJob antiFlood45Response)
        antiFlood45Response) antiFlood45Response).status = .pending ∧
     (processAttempt (processAttempt (processAttempt sampleJob antiFlood45Response)
        antiFlood45Response) antiFlood45Response).retryCount = 0 ∧
     (processAttempt (processAttempt (processAttempt sampleJob antiFlood45Response)
        antiFlood45Response) antiFlood45Response).antiFloodCount = some 3) := by
  refine ⟨fun m ra msg => rfl, fun msg hw hC hc => ?_, by decide, by decide⟩
  simp only [classifyPostResponse, if_true, if_pos]
  simp [hw, hC, hc]

/-- C2 witness: the classification branch applied to the concrete
45-second message of the scenario. -/
theorem c2_antiflood_policy_witness :
    classifyPostResponse { ok := true, status := 200, statusText := "OK", jsonParses := true,
                           jsonStatus := some "error",
                           errors := some ["You must wait at least 45 seconds"] } =
      .thrown (.antiflood (some 45) "You must wait at least 45 seconds") := by
  have h := c2_antiflood_policy.2.1 "You must wait at least 45 seconds"
    (by decide) (by decide) (by decide)
  exact h.trans (by decide)

/-! ## Claim C4: job selection -/

/-- C4: the selected job is the first eligible pending job in insertion
order; a pending job whose retryAfter is 30 seconds is never selected
before its enqueue timestamp plus 30000 milliseconds and is selected once
no eligible job precedes it; a job in the error state is never
selected. -/
theorem c4_selection :
    (∀ (now : Nat) (queue : List QueuedMessage) (m : QueuedMessage),
      findNextPending now queue = some m →
        m.status = .pending ∧ eligibleNow now m = true ∧
        ∃ l1 l2, queue = l1 ++ m :: l2 ∧ ∀ x ∈ l1, eligibleNow now x = false) ∧
    (∀ (now : Nat) (l1 : List QueuedMessage) (m : QueuedMessage) (l2 : List QueuedMessage),
      (∀ x ∈ l1, eligibleNow now x = false) → eligibleNow now m = true →
        findNextPending now (l1 ++ m :: l2) = some m) ∧
    (∀ (now : Nat) (queue : List QueuedMessage) (m : QueuedMessage),
      m.retryAfter = some 30 → now < m.timestamp + 30 * 1000 →
        findNextPending now queue ≠ some m) ∧
    (∀ (now : Nat) (queue : List QueuedMessage) (m : QueuedMessage),
      m.status = .error → findNextPending now queue ≠ some m) := by
  have helig : ∀ now m, eligibleNow now m = true → m.status = .pending := by
    intro now m h
    unfold eligibleNow at h
    have := (Bool.and_eq_true _ _).mp h
    exact of_decide_eq_true this.1
  refine ⟨?_, ?_, ?_, ?_⟩
  · intro now queue m h
    obtain ⟨hpm, l1, l2, hsplit, hall⟩ := find?_eq_some_split (eligibleNow now) h
    exact ⟨helig now m hpm, hpm, l1, l2, hsplit, hall⟩
  · intro now l1 m l2 hall hm
    exact find?_append_cons (eligibleNow now) l1 m l2 hall hm
  · intro now queue m hra hnow h
    obtain ⟨hpm, _⟩ := find?_eq_some_split (eligibleNow now) h
    unfold eligibleNow at hpm
    rw [hra] at hpm
    have h2 := ((Bool.and_eq_true _ _).mp hpm).2
    rcases Bool.or_eq_true_iff.mp h2 with h3 | h3
    · exact absurd (of_decide_eq_true h3) (by simp)
    · exact absurd (of_decide_eq_true h3) (by omega)
  · intro now queue m hst h
    obtain ⟨hpm, _⟩ := find?_eq_some_split (eligibleNow now) h
    have := helig now m hpm
    rw [hst] at this
    cases this

/-- C4 witness: a queue holding first a job throttled for 30 seconds and
then an unthrottled job, observed 1 second after enqueueing: the second
job wins, the throttled one is not selected. -/
theorem c4_selection_witness :
    findNextPending 1000
        [{ sampleJob with id := "a", timestamp := 0, retryAfter := some 30 },
         { sampleJob with id := "b", timestamp := 0 }] =
      some { sampleJob with id := "b", timestamp := 0 } ∧
    findNextPending 1000
        [{ sampleJob with id := "a", timestamp := 0, retryAfter := some 30 },
         { sampleJob with id := "b", timestamp := 0 }] ≠
      some { sampleJob with id := "a", timestamp := 0, retryAfter := some 30 } := by
  constructor
  · exact c4_selection.2.1 1000 [{ sampleJob with id := "a", timestamp := 0, retryAfter := some 30 }]
      { sampleJob with id := "b", timestamp := 0 } [] (by decide) (by decide)
  · exact c4_selection.2.2.1 1000 _ _ rfl (by decide)

/-! ## Claim C6: security and auth errors -/

/-- C6 counterexample: a cookie-related auth error thrown by the sender
is not handled terminally by processQueue (which only recognizes the
security type): the job returns to Pending with retryCount incremented,
instead of transitioning to Failed with counters unchanged. -/
theorem c6_counterexample :
    classifyPostResponse cookieErrResponse =
      .thrown (.auth "Cookie error: Cookies are required to use this site.. Try resyncing the account.") ∧
    (processAttempt sampleJob cookieErrResponse).status = .pending ∧
    (processAttempt sampleJob cookieErrResponse).retryCount = 1 := by
  refine ⟨?_, ?_, ?_⟩ <;> decide

/-- C6 (amended): a security error outcome transitions the job to Failed
immediately with retryCount, antiFloodCount and retryAfter unchanged,
both as a typed exception and through the classification of a
security/csrf keyword message; an auth (cookie-related) error outcome,
however, takes the generic retry path: retryCount increments while below
3 and the job returns to Pending. -/
theorem c6_security_terminal_amended :
    (∀ (m : QueuedMessage) (msg : String), processOutcome m (.exn (.security msg)) =
      { m with status := .error,
               error := some "Security error: [object Object]. The account may need to be resynced." }) ∧
    (∀ (m : QueuedMessage) (msg : String),
      strContains msg "Cookie" = false → strContains msg "cookie" = false →
      strContains msg "wait" = false → strContains msg "security" = true →
      processAttempt m { ok := true, status := 200, statusText := "OK", jsonParses := true,
                         jsonStatus := some "error", errors := some [msg] } =
        { m with status := .error,
                 error := some "Security error: [object Object]. The account may need to be resynced." }) ∧
    (∀ (m : QueuedMessage) (msg : String), processOutcome m (.exn (.auth msg)) =
      if 3 ≤ m.retryCount then { m with status := .error, error := some "[object Object]" }
      else { m with retryCount := m.retryCount + 1, status := .pending, retryAfter := some 30,
                    error := some "[object Object]" }) := by
  refine ⟨fun m msg => rfl, fun m msg hC hc hw hs => ?_, fun m msg => rfl⟩
  simp only [processAttempt, classifyPostResponse]
  simp [hC, hc, hw, hs, processOutcome, errMessageOf]

/-- C6 witness: the amended security clause applied to a concrete
security message, and the auth clause applied to a fresh job. -/
theorem c6_security_terminal_amended_witness :
    processAttempt sampleJob { ok := true, status := 200, statusText := "OK", jsonParses := true,
                               jsonStatus := some "error",
                               errors := some ["security error occurred"] } =
      { sampleJob with status := .error,
                       error := some "Security error: [object Object]. The account may need to be resynced." } := by
  exact c6_security_terminal_amended.2.1 sampleJob "security error occurred"
    (by decide) (by decide) (by decide) (by decide)

/-! ## Claim C7: success transition -/

/-- C7 counterexample: a job carrying retryAfter 45 from an earlier
anti-flood response completes successfully, but its retryAfter field is
not cleared: the Completed job still has retryAfter 45. -/
theorem c7_counterexample :
    (processOutcome { sampleJob with antiFloodCount := some 1, retryAfter := some 45 }
        (.okJson (some "ok") none)).status = .completed ∧
    (processOutcome { sampleJob with antiFloodCount := some 1, retryAfter := some 45 }
        (.okJson (some "ok") none)).retryAfter = some 45 ∧
    (processOutcome { sampleJob with antiFloodCount := some 1, retryAfter := some 45 }
        (.okJson (some "ok") none)).retryAfter ≠ none := by
  refine ⟨?_, ?_, ?_⟩ <;> decide

/-- C7 (amended): a successful send (forum responds with status ok)
transitions the job to Completed with retryCount, antiFloodCount and
also retryAfter all left unchanged: the retry-delay field is not
cleared, though it has no further effect because Completed jobs are
never selected again. -/
theorem c7_success_amended :
    (∀ (m : QueuedMessage) (errs : Option (List String)),
      processOutcome m (.okJson (some "ok") errs) = { m with status := .completed }) ∧
    (∀ (m : QueuedMessage) (r : ForumResponse), r.ok = true → r.jsonParses = true →
      r.jsonStatus = some "ok" →
      processAttempt m r = { m with status := .completed }) ∧
    (∀ (now : Nat) (queue : List QueuedMessage) (m : QueuedMessage),
      m.status = .completed → findNextPending now queue ≠ some m) := by
  refine ⟨fun m errs => rfl, fun m r hok hparse hst => ?_, fun now queue m hst h => ?_⟩
  · obtain ⟨ok, status, statusText, jsonParses, jsonStatus, errors⟩ := r
    simp only at hok hparse hst
    subst hok hparse hst
    simp [processAttempt, classifyPostResponse, processOutcome]
  · obtain ⟨hpm, _⟩ := find?_eq_some_split (eligibleNow now) h
    unfold eligibleNow at hpm
    have := (Bool.and_eq_true _ _).mp hpm
    have h2 := of_decide_eq_true this.1
    rw [hst] at h2
    cases h2

/-- C7 witness: the amended success clause applied to a concrete
response whose body parses with status ok. -/
theorem c7_success_amended_witness :
    processAttempt { sampleJob with retryAfter := some 45 }
        { ok := true, status := 200, statusText := "OK", jsonParses := true,
          jsonStatus := some "ok", errors := none } =
      { sampleJob with retryAfter := some 45, status := .completed } := by
  exact c7_success_amended.2.1 { sampleJob with retryAfter := some 45 }
    { ok := true, status := 200, statusText := "OK", jsonParses := true,
      jsonStatus := some "ok", errors := none } rfl rfl rfl

theorem mem_upsertAccount {l : List AccountState} {st x : AccountState}
    (hx : x ∈ upsertAccount l st) : x = st ∨ (x ∈ l ∧ x.id ≠ st.id) := by
  unfold upsertAccount at hx
  split at hx
  · next hany =>
    obtain ⟨a, ha, hfa⟩ := List.mem_map.mp hx
    by_cases hid : a.id = st.id
    · left; rw [if_pos hid] at hfa; exact hfa.symm
    · right; rw [if_neg hid] at hfa; exact ⟨hfa ▸ ha, hfa ▸ hid⟩
  · next hany =>
    rcases List.mem_append.mp hx with hx | hx
    · right
      refine ⟨hx, fun hid => hany ?_⟩
      exact List.any_eq_true.mpr ⟨x, hx, decide_eq_true hid⟩
    · left; simpa using hx

theorem mem_dupFilter {l : List AccountState} {st x : AccountState}
    (hx : x ∈ dupFilter l st) : x ∈ l := by
  unfold dupFilter at hx
  split at hx
  · exact (List.mem_filter.mp hx).1
  · exact hx

theorem uniqueIds_upsertAccount {l : List AccountState} {st : AccountState}
    (h : UniqueIds l) : UniqueIds (upsertAccount l st) := by
  unfold upsertAccount
  split
  · next hany =>
    rw [UniqueIds, List.pairwise_map]
    refine h.imp ?_
    intro a b hab
    have hf : ∀ c : AccountState, (if c.id = st.id then st else c).id = c.id := by
      intro c; split
      · next hc => rw [hc]
      · rfl
    rw [hf a, hf b]; exact hab
  · next hany =>
    rw [UniqueIds, List.pairwise_append]
    refine ⟨h, List.pairwise_singleton _ _, ?_⟩
    intro a ha b hb
    have hb1 : b = st := by simpa using hb
    subst hb1
    intro hid
    exact hany (List.any_eq_true.mpr ⟨a, ha, decide_eq_true hid⟩)

theorem uniqueIds_dupFilter {l : List AccountState} {st : AccountState}
    (h : UniqueIds l) : UniqueIds (dupFilter l st) := by
  unfold dupFilter
  split
  · exact List.Pairwise.sublist (List.filter_sublist l) h
  · exact h

theorem dupFilter_no_dup {l : List AccountState} {st : AccountState} {u : String}
    (hprof : profileUserId st = some u) (h2 : ProfOnce l) :
    ∀ x ∈ dupFilter l st, dupPred st x = false := by
  intro x hx
  unfold dupFilter at hx
  cases hfind : l.find? (dupPred st) with
  | none =>
    rw [hfind] at hx
    have := List.find?_eq_none.mp hfind x hx
    simpa using Bool.eq_false_iff.mpr this
  | some dup =>
    rw [hfind] at hx
    obtain ⟨hxl, hxid⟩ := List.mem_filter.mp hx
    have hxid2 : x.id ≠ dup.id := of_decide_eq_true hxid
    have hdup1 : dupPred st dup = true := List.find?_some hfind
    have hdupl : dup ∈ l := List.mem_of_find?_eq_some hfind
    obtain ⟨hdp, _⟩ := of_decide_eq_true hdup1
    by_contra hxp
    have hxp1 : dupPred st x = true := Bool.not_eq_false _ |>.mp hxp
    obtain ⟨hxpu, _⟩ := of_decide_eq_true hxp1
    -- both x and dup carry the profile user id of st
    rw [hprof] at hxpu hdp
    obtain ⟨px, hpx, hpxu⟩ : ∃ px, x.profile = some px ∧ px.userId = u := by
      unfold profileUserId at hxpu
      cases hp : x.profile with
      | none => rw [hp] at hxpu; cases hxpu
      | some p => rw [hp] at hxpu; exact ⟨p, rfl, by simpa using hxpu⟩
    obtain ⟨pd, hpd, hpdu⟩ : ∃ pd, dup.profile = some pd ∧ pd.userId = u := by
      unfold profileUserId at hdp
      cases hp : dup.profile with
      | none => rw [hp] at hdp; cases hdp
      | some p => rw [hp] at hdp; exact ⟨p, rfl, by simpa using hdp⟩
    exact hxid2 (h2 x hxl dup hdupl px pd hpx hpd (hpxu.trans hpdu.symm))

theorem profOnce_save (l : List AccountState) (st : AccountState)
    (h2 : ProfOnce l) : ProfOnce (upsertAccount (dupFilter l st) st) := by
  intro x hx y hy px py hpx hpy hu
  rcases mem_upsertAccount hx with hx1 | ⟨hx1, hxid⟩ <;>
    rcases mem_upsertAccount hy with hy1 | ⟨hy1, hyid⟩
  · rw [hx1, hy1]
  · -- x is the saved snapshot, y a surviving account with the same user id
    have hprof : profileUserId st = some px.userId := by
      unfold profileUserId; rw [← hx1, hpx]; rfl
    have hpy2 : profileUserId y = some py.userId := by
      unfold profileUserId; rw [hpy]; rfl
    have hnd := dupFilter_no_dup hprof h2 y hy1
    have hdp : dupPred st y = true := by
      refine decide_eq_true ⟨?_, hyid⟩
      rw [hpy2, hprof, hu]
    rw [hnd] at hdp
    cases hdp
  · have hprof : profileUserId st = some py.userId := by
      unfold profileUserId; rw [← hy1, hpy]; rfl
    have hpx2 : profileUserId x = some px.userId := by
      unfold profileUserId; rw [hpx]; rfl
    have hnd := dupFilter_no_dup hprof h2 x hx1
    have hdp : dupPred st x = true := by
      refine decide_eq_true ⟨?_, hxid⟩
      rw [hpx2, hprof, hu]
    rw [hnd] at hdp
    cases hdp
  · exact h2 x (mem_dupFilter hx1) y (mem_dupFilter hy1) px py hpx hpy hu

theorem save_preserves_inv (states : AccountStates) (state : AccountState)
    (h1 : UniqueIds states.accounts) (h2 : ProfOnce states.accounts) :
    UniqueIds (saveAccountState states state).accounts ∧
      ProfOnce (saveAccountState states state).accounts := by
  constructor
  · exact uniqueIds_upsertAccount (uniqueIds_dupFilter h1)
  · exact profOnce_save states.accounts (resyncAdjust states state) h2

theorem applySaves_inv (saves : List AccountState) :
    ∀ states : AccountStates, UniqueIds states.accounts → ProfOnce states.accounts →
      UniqueIds (applySaves states saves).accounts ∧
        ProfOnce (applySaves states saves).accounts := by
  induction saves with
  | nil => intro states h1 h2; exact ⟨h1, h2⟩
  | cons s ss ih =>
    intro states h1 h2
    obtain ⟨h1s, h2s⟩ := save_preserves_inv states s h1 h2
    exact ih (saveAccountState states s) h1s h2s

/-! ## Claim C5: profile-deduplication invariant -/

/-- C5: starting from the empty store, any sequence of save calls leaves
no two distinct entries, in particular no two Synced entries, holding
profiles with the same external user id; in the section-8 scenario the
duplicate A of the re-saved B is deleted and the active pointer becomes
B. -/
theorem c5_save_dedup_invariant :
    (∀ saves : List AccountState,
      ((applySaves emptyAccountStates saves).accounts).Pairwise
        (fun a b => a.status = .synced → b.status = .synced →
          ∀ pa pb, a.profile = some pa → b.profile = some pb →
            pa.userId ≠ pb.userId)) ∧
    ((saveAccountState { activeAccountId := some "A", accounts := [acctA, acctB] }
        acctB).accounts = [acctB] ∧
     (saveAccountState { activeAccountId := some "A", accounts := [acctA, acctB] }
        acctB).activeAccountId = some "B") := by
  constructor
  · intro saves
    obtain ⟨h1, h2⟩ := applySaves_inv saves emptyAccountStates
      (List.Pairwise.nil) (by intro x hx; cases hx)
    unfold UniqueIds at h1
    rw [List.pairwise_iff_getElem] at h1 ⊢
    intro i j hi hj hij
    intro _ _ pa pb hpa hpb hequ
    have hx := List.getElem_mem hi
    have hy := List.getElem_mem hj
    have := h2 _ hx _ hy pa pb hpa hpb hequ
    exact h1 i j hi hj hij this
  · constructor <;> decide

/-! ## Claim C10: saving always activates -/

/-- C10: every save marks the saved snapshot as the active account,
whatever the prior contents of the store. -/
theorem c10_save_sets_active (states : AccountStates) (state : AccountState) :
    (saveAccountState states state).activeAccountId = some state.id := by
  show some (resyncAdjust states state).id = some state.id
  unfold resyncAdjust
  split <;> rfl

/-! ## Claim C3: switch verification failure and rollback -/

/-- C3 counterexample: a switch to identity 2 whose verification scrape
yields user id 99 (mismatching the stored 42) reports an error, but the
persisted active pointer has moved to 2 (it was 1 before the call) and
the live local storage is left cleared rather than restored, so the live
state is not bit-for-bit equal to its pre-call state. -/
theorem c3_counterexample :
    (handleSwitchAccount "2" [some mismatchProfile, some prevProfile] 5000
        (switchWorld "u1" "s1" "c1" "d1" [("k", "v")])).errorReported = true ∧
    (handleSwitchAccount "2" [some mismatchProfile, some prevProfile] 5000
        (switchWorld "u1" "s1" "c1" "d1" [("k", "v")])).world.states.activeAccountId = some "2" ∧
    (switchWorld "u1" "s1" "c1" "d1" [("k", "v")]).states.activeAccountId = some "1" ∧
    (handleSwitchAccount "2" [some mismatchProfile, some prevProfile] 5000
        (switchWorld "u1" "s1" "c1" "d1" [("k", "v")])).world.states.activeAccountId ≠
      (switchWorld "u1" "s1" "c1" "d1" [("k", "v")]).states.activeAccountId ∧
    (handleSwitchAccount "2" [some mismatchProfile, some prevProfile] 5000
        (switchWorld "u1" "s1" "c1" "d1" [("k", "v")])).world.localStore ≠
      (switchWorld "u1" "s1" "c1" "d1" [("k", "v")]).localStore := by
  refine ⟨?_, ?_, ?_, ?_, ?_⟩ <;> decide

/-- C3 (amended): when the credential write succeeds but the post-switch
scrape mismatches the target profile, the operation reports the failure
and recovers: the essential live auth cookies are restored to their
pre-call values, but the persisted active pointer keeps the target id
written by the credential write (it is not rolled back), the live local
storage is left cleared, and a push-notice cookie may be newly present,
so the live state is not bit-for-bit restored. -/
theorem c3_rollback_amended (v1 v2 v3 v4 : String) (ls : List (String × String)) :
    (handleSwitchAccount "2" [some mismatchProfile, some prevProfile] 5000
        (switchWorld v1 v2 v3 v4 ls)).switchSuccessful = false ∧
    (handleSwitchAccount "2" [some mismatchProfile, some prevProfile] 5000
        (switchWorld v1 v2 v3 v4 ls)).errorReported = true ∧
    (handleSwitchAccount "2" [some mismatchProfile, some prevProfile] 5000
        (switchWorld v1 v2 v3 v4 ls)).world.states.activeAccountId = some "2" ∧
    (handleSwitchAccount "2" [some mismatchProfile, some prevProfile] 5000
        (switchWorld v1 v2 v3 v4 ls)).world.localStore = [] ∧
    (handleSwitchAccount "2" [some mismatchProfile, some prevProfile] 5000
        (switchWorld v1 v2 v3 v4 ls)).world.jar.filter isEssential =
      [wwwCookie "xf_user" v1, wwwCookie "xf_session" v2, wwwCookie "xf_csrf" v3,
       wwwCookie "xf_dbWriteForced" v4] ∧
    (switchWorld v1 v2 v3 v4 ls).jar.filter isEssential =
      [wwwCookie "xf_user" v1, wwwCookie "xf_session" v2, wwwCookie "xf_csrf" v3,
       wwwCookie "xf_dbWriteForced" v4] := by
  simp [handleSwitchAccount, storeCurrentSession, switchToAccountState, recoverPrevious,
        clearCurrentSession, getAllForumCookies, removeCookies, removeCookieKey, setCookie,
        isEssential, ESSENTIAL_COOKIES, switchWorld, switchJar, switchAcct1, switchAcct2,
        wwwCookie, lsSetItem, firstProfile, mismatchProfile, prevProfile, pushNoticeCookie,
        IGNBOARDS_DOMAIN, WWW_IGNBOARDS_DOMAIN]

/-! ## Claim C8: import validation -/

/-- C8 counterexample: a blob whose single account carries a null
localStorage is structurally invalid in the sense of the claim (it lacks
a localStorage object), yet the typeof-based check of the code accepts
null, the import succeeds and the blob is written. -/
theorem c8_counterexample :
    specStructurallyInvalid c8BadBlob ∧ importAccountData c8BadBlob = some c8BadBlob := by
  constructor
  · right; right
    refine ⟨Json.obj [("id", Json.str "a"), ("name", Json.str "n"),
                      ("cookies", Json.arr []), ("localStorage", Json.null),
                      ("timestamp", Json.num 1)], ?_, ?_⟩
    · have h : specAccounts c8BadBlob =
          [Json.obj [("id", Json.str "a"), ("name", Json.str "n"),
                     ("cookies", Json.arr []), ("localStorage", Json.null),
                     ("timestamp", Json.num 1)]] := rfl
      rw [h]
      exact List.mem_singleton_self _
    · exact Or.inr (Or.inr (Or.inr (Or.inl rfl)))
  · rfl

/-- C8 (amended): the import rejects exactly the blobs failing the
checks the code runs - not a truthy value of typeof object with an
accounts key, accounts whose values cannot be enumerated, or some
account value failing the per-account validation, whose localStorage
check is typeof-based and also accepts null and arrays - and a
rejected attempt performs no write, leaving the prior blob
unchanged. -/
theorem c8_import_amended :
    (∀ j : Json, specInvalidAmended j ↔ importAccountData j = none) ∧
    (∀ (prev : Option Json) (j : Json), importAccountData j = none →
      storageAfterImport prev j = prev) := by
  constructor
  · intro j
    unfold specInvalidAmended importAccountData
    cases h1 : j.truthy with
    | false =>
      simp only [h1, Bool.false_and, if_false]
      simp
    | true =>
      cases h2 : j.typeofObject with
      | false =>
        simp only [h1, h2, Bool.true_and, Bool.false_and, if_false]
        simp
      | true =>
        cases h3 : j.hasKey "accounts" with
        | false =>
          simp only [h1, h2, h3, Bool.true_and, if_false]
          simp
        | true =>
          simp only [h1, h2, h3, Bool.true_and, if_true]
          cases h4 : jsValues ((j.getKey "accounts").getD Json.null) with
          | none => simp
          | some vs =>
            simp only [Option.getD_some]
            constructor
            · intro hinv
              rcases hinv with hc | hc | hc | hc | ⟨a, ha, hc⟩
              · cases hc
              · cases hc
              · cases hc
              · cases hc
              · have hall : vs.all (fun v => (validAccount v).getD false) = false := by
                  rw [Bool.eq_false_iff]
                  intro hall
                  have := List.all_eq_true.mp hall a ha
                  cases hv : validAccount a with
                  | none => rw [hv] at this; cases this
                  | some b =>
                    cases b with
                    | false => rw [hv] at this; cases this
                    | true => exact hc hv
                rw [hall]
                rfl
            · intro hnone
              refine Or.inr (Or.inr (Or.inr (Or.inr ?_)))
              by_cases hall : vs.all (fun v => (validAccount v).getD false) = true
              · rw [hall] at hnone; cases hnone
              · have hnotall : ¬ ∀ x ∈ vs, ((validAccount x).getD false) = true := by
                  intro hforall
                  exact hall (List.all_eq_true.mpr hforall)
                push_neg at hnotall
                obtain ⟨a, ha, hfa⟩ := hnotall
                refine ⟨a, ha, fun hv => ?_⟩
                rw [hv] at hfa
                exact hfa rfl
  · intro prev j h
    unfold storageAfterImport
    rw [h]

/-- C8 witness: an import of a non-object blob fails and leaves the
prior blob in place. -/
theorem c8_import_amended_witness :
    storageAfterImport (some (Json.str "prior")) (Json.num 3) = some (Json.str "prior") := by
  exact c8_import_amended.2 (some (Json.str "prior")) (Json.num 3) rfl

/-! ## Claim C9: export and import round trip -/

theorem validAccount_accountToJson (a : AccountState) (h : WfAccount a) :
    validAccount (accountToJson a) = some true := by
  obtain ⟨h1, h2, h3⟩ := h
  have e : validAccount (accountToJson a) =
      some (decide (a.id ≠ "") && decide (a.name ≠ "") && true && true &&
            decide ((Int.ofNat a.timestamp) ≠ 0)) := rfl
  have ht : (Int.ofNat a.timestamp) ≠ 0 := by
    intro hc
    exact h3 (Int.ofNat.inj hc)
  rw [e, decide_eq_true h1, decide_eq_true h2, decide_eq_true ht]
  rfl

theorem importAccountData_of_checks (j : Json) (vs : List Json)
    (h1 : j.truthy = true) (h2 : j.typeofObject = true) (h3 : j.hasKey "accounts" = true)
    (h4 : jsValues ((j.getKey "accounts").getD Json.null) = some vs)
    (h5 : ∀ v ∈ vs, validAccount v = some true) :
    importAccountData j = some j := by
  unfold importAccountData
  rw [h1, h2, h3]
  simp only [Bool.true_and, if_true]
  rw [h4]
  show (if (vs.all fun v => (validAccount v).getD false) = true then some j else none) = some j
  have hall : vs.all (fun v => (validAccount v).getD false) = true :=
    List.all_eq_true.mpr (fun v hv => by rw [h5 v hv]; rfl)
  rw [hall]
  rfl

/-- C9: exporting any store of well-formed snapshots (nonempty ids and
names, nonzero timestamps) and importing the export succeeds, writes
exactly the exported blob back, and that blob carries the accounts
mapping of the original store. -/
theorem c9_roundtrip (s : AccountStates) (hwf : ∀ a ∈ s.accounts, WfAccount a) :
    importAccountData (exportAccountData s) = some (exportAccountData s) ∧
    (exportAccountData s).getKey "accounts" =
      some (Json.obj (s.accounts.map (fun a => (a.id, accountToJson a)))) := by
  obtain ⟨act, pend, accs⟩ := s
  have hkey : (exportAccountData ⟨act, pend, accs⟩).getKey "accounts" =
      some (Json.obj (accs.map (fun a => (a.id, accountToJson a)))) := by
    cases act <;> cases pend <;> rfl
  refine ⟨?_, hkey⟩
  refine importAccountData_of_checks _
    ((accs.map (fun a => (a.id, accountToJson a))).map (fun f => f.2)) ?_ ?_ ?_ ?_ ?_
  · cases act <;> cases pend <;> rfl
  · cases act <;> cases pend <;> rfl
  · unfold Json.hasKey
    rw [hkey]
    rfl
  · rw [hkey]
    rfl
  · intro v hv
    rw [List.map_map] at hv
    obtain ⟨a, ha, hva⟩ := List.mem_map.mp hv
    rw [← hva]
    exact validAccount_accountToJson a (hwf a ha)

/-- C9 witness: the round trip on a concrete one-account store. -/
theorem c9_roundtrip_witness :
    importAccountData (exportAccountData { activeAccountId := some "A", accounts := [acctA] }) =
      some (exportAccountData { activeAccountId := some "A", accounts := [acctA] }) := by
  exact (c9_roundtrip { activeAccountId := some "A", accounts := [acctA] }
    (by intro a ha; simp at ha; subst ha; exact ⟨by decide, by decide, by decide⟩)).1

